import Mathlib

/-!
Shallow embedding of `src/server.js` (magicball-server), an Express relay with
two POST endpoints (`/magicball`, `/astro`) that validate a JSON body, build a
bilingual prompt pair and forward one chat-completion call upstream.

Modelling conventions:
* JSON values are the inductive `Json`; JavaScript field access `o?.k` is
  `jsGet`, which yields `none` (undefined) on non-objects and missing keys.
* Optional string-typed body fields are `Option String`; JavaScript falsiness
  for strings (`undefined`, `""`) is `jsOr` / explicit `= ""` tests.
* The upstream `fetch` outcome is abstracted as `FetchResult`: either a
  settled HTTP response (ok flag, status, optional error-payload message,
  optional generated message content) or the abort fired by the timeout.
  The Node runtime's abort rejection carries the message
  "This operation was aborted"; this is the only environment fact the
  embedding assumes beyond the source.
* Handlers are pure functions of the parsed body and a `FetchResult`; a
  response is the HTTP status plus the JSON envelope fields. That the
  response is a constant function of the `FetchResult` formalises "no
  upstream call is made".
-/

/-- JSON values (numbers as integers; no claim computes with numerics). -/
inductive Json where
  | null : Json
  | bool (b : Bool) : Json
  | num (n : Int) : Json
  | str (s : String) : Json
  | arr (xs : List Json) : Json
  | obj (kvs : List (String × Json)) : Json

/-- JavaScript optional chaining `v?.key`: property lookup that is
`undefined` (`none`) on anything but an object with the key. -/
def jsGet (v : Json) (key : String) : Option Json :=
  match v with
  | Json.obj kvs => (kvs.find? (fun kv => kv.1 = key)).map (fun kv => kv.2)
  | _ => none

/-- JavaScript truthiness of a JSON value. -/
def jsTruthy (v : Json) : Bool :=
  match v with
  | Json.null => false
  | Json.bool b => b
  | Json.num n => n != 0
  | Json.str s => s != ""
  | Json.arr _ => true
  | Json.obj _ => true

/-- JavaScript `a || b` for an optional string `a` (absent and `""` are falsy). -/
def jsOr (a : Option String) (b : String) : String :=
  match a with
  | some s => if s = "" then b else s
  | none => b

/-- ASCII lowercase mapping of one character (the case-insensitive tests of
the source involve only ASCII letters). -/
def lowerChar (c : Char) : Char :=
  if 65 ≤ c.toNat ∧ c.toNat ≤ 90 then Char.ofNat (c.toNat + 32) else c

/-- JavaScript `s.toLowerCase()` restricted to ASCII case mapping. -/
def jsToLower (s : String) : String :=
  String.mk (s.data.map lowerChar)

/-- Common ASCII whitespace (the forms JavaScript `trim` removes that occur
in the claims). -/
def isWsChar (c : Char) : Bool :=
  c == ' ' || c == '\t' || c == '\n' || c == '\r'

/-- JavaScript `s.trim()`: strip leading and trailing whitespace. -/
def jsTrim (s : String) : String :=
  String.mk (((s.data.dropWhile isWsChar).reverse.dropWhile isWsChar).reverse)

/-- Character-list equality of a leading segment (helper for substring search). -/
def leadEq : List Char → List Char → Bool
  | [], _ => true
  | _ :: _, [] => false
  | a :: as, b :: bs => a == b && leadEq as bs

/-- Substring search over character lists (helper for the abort-pattern test). -/
def hasSub (pat : List Char) : List Char → Bool
  | [] => pat.isEmpty
  | c :: rest => leadEq pat (c :: rest) || hasSub pat rest

/-- Case-insensitive substring containment. -/
def containsCI (s pat : String) : Bool :=
  hasSub (jsToLower pat).data (jsToLower s).data

/-- The regex test `/aborted|AbortError/i.test(msg)` of the endpoint catch
blocks (src/server.js lines 180 and 234): case-insensitive search for the
literal alternatives "aborted" and "AbortError". -/
def isAbortMsg (msg : String) : Bool :=
  containsCI msg "aborted" || containsCI msg "aborterror"

/-- The stable timeout message of both catch blocks. -/
def timeoutSentence : String := "Upstream timeout (OpenAI). Try again."

/-- Expected message of the Node abort rejection (environment fact, see header). -/
def abortRuntimeMsg : String := "This operation was aborted"

/-- Function `pickLang` (src/server.js lines 34-37). -/
def pickLang (lang : Option String) : String :=
  let L := jsToLower (jsOr lang "")
  if leadEq "en".data L.data then "en" else "ro"

/-- Outcome of the upstream `fetch` inside `openaiChat`, abstracted. -/
inductive FetchResult where
  | response (ok : Bool) (status : Nat) (errMsg : Option String) (content : Option String) : FetchResult
  | abortError : FetchResult

/-- Resolution `model || process.env.OPENAI_MODEL_CHAT || "gpt-4o"`
(src/server.js line 47). -/
def usedModel (model envChat : Option String) : String :=
  jsOr model (jsOr envChat "gpt-4o")

/-- Effective abort deadline `Math.max(10_000, timeoutMs || 75_000)`
(src/server.js line 52). -/
def effectiveTimeout (timeoutMs : Option Nat) : Nat :=
  max 10000 (match timeoutMs with
    | some t => if t = 0 then 75000 else t
    | none => 75000)

/-- Effective token bound `maxTokens ?? 1800` (src/server.js line 68). -/
def effectiveMaxTokens (maxTokens : Option Nat) : Nat :=
  maxTokens.getD 1800

/-- Core of `openaiChat` (src/server.js lines 45-85) after the `fetch`
settles: a non-ok status throws the provider message when truthy, else the
generic "OpenAI HTTP status" message; an ok status returns the trimmed
content when non-empty and throws "Empty OpenAI response" otherwise; an
abort rejects with the runtime abort message. -/
def openaiChat (fr : FetchResult) : Except String String :=
  match fr with
  | FetchResult.abortError => Except.error abortRuntimeMsg
  | FetchResult.response rok status errMsg content =>
    if rok then
      let text := jsTrim (match content with | some c => c | none => "")
      if text = "" then Except.error "Empty OpenAI response" else Except.ok text
    else
      Except.error (match errMsg with
        | some m => if m = "" then "OpenAI HTTP " ++ toString status else m
        | none => "OpenAI HTTP " ++ toString status)

/-- HTTP response model: status plus the JSON envelope fields. -/
structure Response where
  status : Nat
  ok : Bool
  error : Option String
  text : Option String
deriving DecidableEq

/-- Envelope `res.status(400).json(ok, false, error, e)`. -/
def resp400 (e : String) : Response :=
  { status := 400, ok := false, error := some e, text := none }

/-- Envelope `res.json(ok, true, text)` (status defaults to 200). -/
def respOk (t : String) : Response :=
  { status := 200, ok := true, error := none, text := some t }

/-- Shared catch block of both endpoints (src/server.js lines 177-185 and
232-239): status 500, abort-matching messages replaced by the stable
timeout sentence, all other messages passed through raw. -/
def endpointCatch (msg : String) : Response :=
  { status := 500, ok := false,
    error := some (if isAbortMsg msg then timeoutSentence else msg),
    text := none }

/-- Parsed body of POST /magicball (destructuring at src/server.js line 164). -/
structure MagicballBody where
  question : Option String
  lang : Option String

/-- Arguments of one `openaiChat` call site. -/
structure ChatArgs where
  system : String
  user : String
  model : Option String
  maxTokens : Option Nat
  temperature : ℚ
  timeoutMs : Option Nat

/-- System prompt `systemMagicBall` (src/server.js lines 87-112). -/
def systemMagicBall (L : String) : String :=
  if L = "en" then
    "You are Sanctuary MagicBall — a symbolic oracle.\nBe warm, detailed, and practical. Do NOT do natal astrology.\n\nReturn EXACT structure:\n1) Core message (3–6 lines)\n2) Interpretation (8–14 lines)\n3) Practical guidance (5–8 bullet steps)\n4) Caution / boundaries (3–6 lines)\n5) Affirmation (one powerful line)\n\nTone: modern, grounded, confident."
  else
    "Ești Sanctuary MagicBall — un oracol simbolic.\nFii cald(ă), detaliat(ă) și practic(ă). NU faci astrologie natală.\n\nReturnează EXACT structura:\n1) Mesajul central (3–6 rânduri)\n2) Interpretare (8–14 rânduri)\n3) Ghidare practică (5–8 pași bullet)\n4) Atenționare / limite (3–6 rânduri)\n5) Afirmație (un rând puternic)\n\nTon: modern, ancorat, sigur pe tine."

/-- System prompt `systemAstroAI` (src/server.js lines 114-160). -/
def systemAstroAI (L : String) : String :=
  if L = "en" then
    "You are Sanctuary AstroAI — a professional natal astrology interpreter.\n\nInput: a precomputed birthChart object (planets with sign+degree; houses with ascendant/mc and cusps).\nTask: produce a LONG, high-quality interpretation.\n\nRules:\n- Use the provided placements only. Do NOT invent missing planets/houses.\n- Interpret planet-by-planet, then synthesize.\n- Explain Ascendant + MC specifically if provided.\n- Give strengths, challenges, and actionable guidance.\n- Use a calm, expert tone (no fluff).\n- Do not mention Swiss Ephemeris or \"backend\".\n\nOutput format (STRICT):\nA) Summary (6–10 lines)\nB) Core personality (bullets)\nC) Planet-by-planet (Sun, Moon, Mercury, Venus, Mars, Jupiter, Saturn, Uranus, Neptune, Pluto) — only those present\nD) Angles & houses (Asc/MC + notable house cusps if present)\nE) Practical life guidance (Career, Love, Money, Health) — 4 sections\nF) Key patterns (3–5)\nG) 30-day focus plan (7 bullets)"
  else
    "Ești Sanctuary AstroAI — interpret profesionist de astrologie natală.\n\nInput: un obiect birthChart deja calculat (planete cu zodie+grad; case cu ascendent/mc și cuspide).\nSarcină: oferă o interpretare LUNGĂ, de calitate.\n\nReguli:\n- Folosești doar datele primite. NU inventezi planete/case lipsă.\n- Interpretezi planetă cu planetă, apoi sintezi.\n- Explici explicit Ascendent + MC dacă există.\n- Dai puncte forte, provocări și ghidare aplicată.\n- Ton calm, expert (fără umplutură).\n- Nu menționa Swiss Ephemeris sau „backend”.\n\nFormat output (STRICT):\nA) Sinteză (6–10 rânduri)\nB) Personalitate de bază (bullets)\nC) Planetă cu planetă (Soare, Lună, Mercur, Venus, Marte, Jupiter, Saturn, Uranus, Neptun, Pluto) — doar ce există\nD) Unghiuri & case (Asc/MC + cuspide notabile dacă există)\nE) Ghidare practică (Carieră, Iubire, Bani, Sănătate) — 4 secțiuni\nF) Tipare cheie (3–5)\nG) Plan de focus 30 zile (7 bullets)"

/-- Upstream request the /magicball handler builds when validation passes
(src/server.js lines 165-174): `none` exactly when `!question`. -/
def magicballRequest (b : MagicballBody) : Option ChatArgs :=
  match b.question with
  | none => none
  | some q =>
    if q = "" then none
    else some
      { system := systemMagicBall (pickLang b.lang)
        user := jsTrim q
        model := none
        maxTokens := some 1400
        temperature := 85/100
        timeoutMs := some 65000 }

/-- Handler of POST /magicball (src/server.js lines 162-186). -/
def magicballHandler (b : MagicballBody) (fr : FetchResult) : Response :=
  match magicballRequest b with
  | none => resp400 "Missing question"
  | some _ =>
    match openaiChat fr with
    | Except.ok text => respOk text
    | Except.error msg => endpointCatch msg

/-- Parsed body of POST /astro (destructuring at src/server.js line 196);
`birthChart` is kept as raw JSON because the handler probes it with
optional chaining. -/
structure AstroBody where
  birthChart : Option Json
  lang : Option String
  question : Option String

/-- Expression `birthChart?.planets` (src/server.js line 197). -/
def astroPlanets (b : AstroBody) : Option Json :=
  b.birthChart.bind (fun bc => jsGet bc "planets")

/-- Validation test `!Array.isArray(planets) || planets.length === 0`
(src/server.js line 199). -/
def missingPlanets (b : AstroBody) : Bool :=
  match astroPlanets b with
  | some (Json.arr xs) => xs.isEmpty
  | _ => true

/-- Projection `p => (name, sign, degree, longitude)` of one planet entry
(src/server.js lines 209-214); `none` is the undefined a missing field
yields. -/
structure PlanetProj where
  name : Option Json
  sign : Option Json
  degree : Option Json
  longitude : Option Json

/-- Mapping applied to every planet entry (src/server.js lines 209-214). -/
def projPlanet (p : Json) : PlanetProj :=
  { name := jsGet p "name"
    sign := jsGet p "sign"
    degree := jsGet p "degree"
    longitude := jsGet p "longitude" }

/-- The four keys the projection reads. -/
def projKeys : List String := ["name", "sign", "degree", "longitude"]

/-- Expression `birthChart?.houses || null` (src/server.js line 215). -/
def astroHouses (b : AstroBody) : Json :=
  match b.birthChart.bind (fun bc => jsGet bc "houses") with
  | some v => if jsTruthy v then v else Json.null
  | none => Json.null

/-- Lines 206 and 216: `focus = question ? String(question).trim() : ""`,
then `focus: focus || null`; `none` models the serialized `null`. -/
def astroFocus (question : Option String) : Option String :=
  let focus := match question with
    | some q => if q = "" then "" else jsTrim q
    | none => ""
  if focus = "" then none else some focus

/-- The payload object (src/server.js lines 208-217) built from the
validated planets array `xs`. -/
structure AstroPayload where
  planets : List PlanetProj
  houses : Json
  focus : Option String

/-- Construction of the payload (src/server.js lines 208-217). -/
def astroPayloadOf (b : AstroBody) (xs : List Json) : AstroPayload :=
  { planets := xs.map projPlanet
    houses := astroHouses b
    focus := astroFocus b.question }

/-- User message of /astro (src/server.js lines 219-221), parametric in the
serialized payload text (`JSON.stringify(payload, null, 2)`). -/
def astroUser (L : String) (payloadStr : String) : String :=
  if L = "en" then
    "Here is the birthChart JSON:\n" ++ payloadStr ++ "\n\nIf focus is provided, prioritize it."
  else
    "Iată JSON-ul birthChart:\n" ++ payloadStr ++ "\n\nDacă există focus, prioritizează-l."

/-- Upstream request the /astro handler builds when validation passes
(src/server.js lines 196-229), parametric in the payload serializer:
`none` exactly when validation fails. -/
def astroRequest (b : AstroBody) (ser : AstroPayload → String) : Option ChatArgs :=
  match astroPlanets b with
  | some (Json.arr xs) =>
    if xs.isEmpty then none
    else
      let L := pickLang b.lang
      some
        { system := systemAstroAI L
          user := astroUser L (ser (astroPayloadOf b xs))
          model := none
          maxTokens := some 2200
          temperature := 78/100
          timeoutMs := some 90000 }
  | _ => none

/-- Handler of POST /astro (src/server.js lines 194-240), parametric in the
payload serializer. -/
def astroHandler (b : AstroBody) (ser : AstroPayload → String) (fr : FetchResult) : Response :=
  match astroRequest b ser with
  | none => resp400 "Missing birthChart.planets"
  | some _ =>
    match openaiChat fr with
    | Except.ok text => respOk text
    | Except.error msg => endpointCatch msg

/-- Model used by /magicball: the call site passes no `model`, so line 47
resolves it from the environment (src/server.js lines 168-174 and 47). -/
def magicballUsedModel (envChat _envAstro : Option String) : String :=
  usedModel none envChat

/-- Model used by /astro: the call site passes no `model` either, so the
same line 47 resolution applies (src/server.js lines 223-229 and 47). -/
def astroUsedModel (envChat _envAstro : Option String) : String :=
  usedModel none envChat

/-- Model resolution as the spec words it, for comparison with `usedModel`.
Modelled from the spec: "explicit per-call value, else endpoint-specific
environment override, else request-type default, else a global default
identifier". -/
def resolveModelSpec (explicit endpointOverride typeDefault : Option String)
    (globalDefault : String) : String :=
  jsOr explicit (jsOr endpointOverride (jsOr typeDefault globalDefault))

/-! Helper lemmas shared by several claims. -/

/-- A valid question makes `magicballRequest` produce the line 168-174 call
arguments. -/
theorem magicballRequest_valid (b : MagicballBody) (q : String)
    (hb : b.question = some q) (hq : q ≠ "") :
    magicballRequest b = some
      { system := systemMagicBall (pickLang b.lang), user := jsTrim q, model := none,
        maxTokens := some 1400, temperature := 85/100, timeoutMs := some 65000 } := by
  unfold magicballRequest
  rw [hb]
  simp [hq]

/-- With a valid question the /magicball response is the normalization of
the upstream outcome. -/
theorem magicballHandler_valid (b : MagicballBody) (q : String)
    (hb : b.question = some q) (hq : q ≠ "") (fr : FetchResult) :
    magicballHandler b fr =
      (match openaiChat fr with
       | Except.ok t => respOk t
       | Except.error m => endpointCatch m) := by
  unfold magicballHandler
  rw [magicballRequest_valid b q hb hq]

/-- A non-empty planets array makes `astroRequest` produce the line 223-229
call arguments. -/
theorem astroRequest_valid (b : AstroBody) (ser : AstroPayload → String)
    (xs : List Json) (hp : astroPlanets b = some (Json.arr xs)) (hne : xs ≠ []) :
    astroRequest b ser = some
      { system := systemAstroAI (pickLang b.lang)
        user := astroUser (pickLang b.lang) (ser (astroPayloadOf b xs))
        model := none, maxTokens := some 2200, temperature := 78/100,
        timeoutMs := some 90000 } := by
  unfold astroRequest
  rw [hp]
  simp [List.isEmpty_iff, hne]

/-- With a valid planets array the /astro response is the normalization of
the upstream outcome. -/
theorem astroHandler_valid (b : AstroBody) (ser : AstroPayload → String)
    (xs : List Json) (hp : astroPlanets b = some (Json.arr xs)) (hne : xs ≠ [])
    (fr : FetchResult) :
    astroHandler b ser fr =
      (match openaiChat fr with
       | Except.ok t => respOk t
       | Except.error m => endpointCatch m) := by
  unfold astroHandler
  rw [astroRequest_valid b ser xs hp hne]

/-- The `openaiChat` success value is never the empty string. -/
theorem openaiChat_ok_ne_empty (fr : FetchResult) (t : String)
    (h : openaiChat fr = Except.ok t) : t ≠ "" := by
  cases fr with
  | abortError => simp [openaiChat] at h
  | response rok status errMsg content =>
    cases rok with
    | false => simp [openaiChat] at h
    | true =>
      simp only [openaiChat, if_true] at h
      split at h
      · simp at h
      · rename_i he
        cases h
        exact he

/-! Claim C1. -/

/-- C1 fails as stated: a request whose `question` is the whitespace-only
string " " is not rejected with 400 "Missing question"; with a successful
upstream completion the handler answers 200/ok, and the response depends
on the upstream call (so a call is made). -/
theorem C1_counterexample :
    magicballHandler { question := some " ", lang := none }
        (FetchResult.response true 200 none (some "Take the leap.")) =
      respOk "Take the leap."
  ∧ magicballHandler { question := some " ", lang := none } FetchResult.abortError ≠
      resp400 "Missing question" := by
  refine ⟨by decide, by decide⟩

/-- C1 amended: a request whose `question` is absent or the empty string is
answered 400 with "Missing question", and the response is independent of
the upstream outcome, so no upstream call is observable. -/
theorem C1_missing_question (b : MagicballBody)
    (h : b.question = none ∨ b.question = some "") :
    ∀ fr : FetchResult, magicballHandler b fr = resp400 "Missing question" := by
  intro fr
  unfold magicballHandler magicballRequest
  rcases h with h | h
  · rw [h]
  · rw [h]
    simp

/-- Witness: the amended C1 at the absent-question body. -/
theorem C1_missing_question_witness :
    magicballHandler { question := none, lang := none } FetchResult.abortError =
      resp400 "Missing question" :=
  C1_missing_question { question := none, lang := none } (Or.inl rfl) FetchResult.abortError

/-! Claim C2. -/

/-- C2: a /astro request whose `birthChart.planets` is absent, not an
array, or an empty array (that is, never a non-empty array) is answered
400 with "Missing birthChart.planets", and the response is independent of
the upstream outcome, so no upstream call is observable. -/
theorem C2_missing_planets (b : AstroBody)
    (h : ∀ xs : List Json, astroPlanets b = some (Json.arr xs) → xs = []) :
    ∀ (ser : AstroPayload → String) (fr : FetchResult),
      astroHandler b ser fr = resp400 "Missing birthChart.planets" := by
  intro ser fr
  unfold astroHandler astroRequest
  cases hp : astroPlanets b with
  | none => rfl
  | some v =>
    cases v with
    | arr xs =>
      have hxe := h xs hp
      subst hxe
      rfl
    | null => rfl
    | bool b => rfl
    | num n => rfl
    | str s => rfl
    | obj kvs => rfl

/-- Witness: C2 at the body with no `birthChart` at all. -/
theorem C2_missing_planets_witness :
    astroHandler { birthChart := none, lang := none, question := none }
        (fun _ => "") FetchResult.abortError =
      resp400 "Missing birthChart.planets" :=
  C2_missing_planets { birthChart := none, lang := none, question := none }
    (fun xs hx => by simp [astroPlanets] at hx) (fun _ => "") FetchResult.abortError

/-! Claim C3. -/

/-- C3: every ok-true response of either endpoint carries a non-empty
`text`; a success upstream status whose generated content trims to the
empty string makes `openaiChat` fail, and for a valid body the endpoint
then answers 500 with ok false — never 200 with empty text. -/
theorem C3_nonempty_text :
    (∀ (b : MagicballBody) (fr : FetchResult) (t : String),
        (magicballHandler b fr).ok = true → (magicballHandler b fr).text = some t → t ≠ "")
  ∧ (∀ (b : AstroBody) (ser : AstroPayload → String) (fr : FetchResult) (t : String),
        (astroHandler b ser fr).ok = true → (astroHandler b ser fr).text = some t → t ≠ "")
  ∧ (∀ (status : Nat) (errMsg : Option String) (content : Option String),
        jsTrim (content.getD "") = "" →
        openaiChat (FetchResult.response true status errMsg content) =
          Except.error "Empty OpenAI response")
  ∧ (∀ (b : MagicballBody) (q : String) (status : Nat) (errMsg : Option String),
        b.question = some q → q ≠ "" →
        magicballHandler b (FetchResult.response true status errMsg (some "")) =
          { status := 500, ok := false, error := some "Empty OpenAI response", text := none }) := by
  refine ⟨?_, ?_, ?_, ?_⟩
  · intro b fr t hok htext
    unfold magicballHandler at hok htext
    cases hreq : magicballRequest b with
    | none => rw [hreq] at hok; cases hok
    | some args =>
      rw [hreq] at hok htext
      cases hch : openaiChat fr with
      | ok u =>
        rw [hch] at htext
        have hu : some u = some t := htext
        cases hu
        exact openaiChat_ok_ne_empty fr t hch
      | error m => rw [hch] at hok; cases hok
  · intro b ser fr t hok htext
    unfold astroHandler at hok htext
    cases hreq : astroRequest b ser with
    | none => rw [hreq] at hok; cases hok
    | some args =>
      rw [hreq] at hok htext
      cases hch : openaiChat fr with
      | ok u =>
        rw [hch] at htext
        have hu : some u = some t := htext
        cases hu
        exact openaiChat_ok_ne_empty fr t hch
      | error m => rw [hch] at hok; cases hok
  · intro status errMsg content he
    cases content with
    | none => simp [openaiChat, jsTrim] at he ⊢
    | some c =>
      simp only [Option.getD] at he
      simp [openaiChat, he]
  · intro b q status errMsg hb hq
    rw [magicballHandler_valid b q hb hq]
    have : openaiChat (FetchResult.response true status errMsg (some "")) =
        Except.error "Empty OpenAI response" := by
      simp [openaiChat, jsTrim]
    rw [this]
    decide

/-- Witness: C3 at a success with text and at an empty completion. -/
theorem C3_nonempty_text_witness :
    ("Take the leap." ≠ "")
  ∧ openaiChat (FetchResult.response true 200 none (some " ")) =
      Except.error "Empty OpenAI response"
  ∧ magicballHandler { question := some "q", lang := none }
      (FetchResult.response true 200 none (some "")) =
      { status := 500, ok := false, error := some "Empty OpenAI response", text := none } :=
  ⟨C3_nonempty_text.1 { question := some "q", lang := none }
      (FetchResult.response true 200 none (some "Take the leap.")) "Take the leap."
      (by decide) (by decide),
   C3_nonempty_text.2.2.1 200 none (some " ") (by decide),
   C3_nonempty_text.2.2.2 { question := some "q", lang := none } "q" 200 none rfl (by decide)⟩

/-! Claim C4. -/

/-- C4: a `lang` whose (ASCII) lowercase form starts with "en" makes
`pickLang` choose "en" and both endpoints send the English system template
upstream; every other value, the absent `lang` included, chooses "ro" and
the default Romanian template. -/
theorem C4_language_selection (lang : Option String) (q : String) (hq : q ≠ "")
    (bc : Json) (xs : List Json) (hbc : jsGet bc "planets" = some (Json.arr xs))
    (hne : xs ≠ []) (ser : AstroPayload → String) :
    (leadEq "en".data (jsToLower (jsOr lang "")).data = true →
        pickLang lang = "en"
      ∧ (magicballRequest { question := some q, lang := lang }).map ChatArgs.system =
          some (systemMagicBall "en")
      ∧ (astroRequest { birthChart := some bc, lang := lang, question := none } ser).map
          ChatArgs.system = some (systemAstroAI "en"))
  ∧ (leadEq "en".data (jsToLower (jsOr lang "")).data = false →
        pickLang lang = "ro"
      ∧ (magicballRequest { question := some q, lang := lang }).map ChatArgs.system =
          some (systemMagicBall "ro")
      ∧ (astroRequest { birthChart := some bc, lang := lang, question := none } ser).map
          ChatArgs.system = some (systemAstroAI "ro"))
  ∧ pickLang none = "ro" := by
  have hmb := magicballRequest_valid { question := some q, lang := lang } q rfl hq
  have has : astroPlanets { birthChart := some bc, lang := lang, question := none } =
      some (Json.arr xs) := by
    simp [astroPlanets, hbc]
  have hab := astroRequest_valid { birthChart := some bc, lang := lang, question := none }
    ser xs has hne
  refine ⟨?_, ?_, rfl⟩
  · intro hen
    have hp : pickLang lang = "en" := by
      unfold pickLang
      simp [hen]
    exact ⟨hp, by simp [hmb, hp], by simp [hab, hp]⟩
  · intro hen
    have hp : pickLang lang = "ro" := by
      unfold pickLang
      simp [hen]
    exact ⟨hp, by simp [hmb, hp], by simp [hab, hp]⟩

/-- Witness: C4 at the mixed-case tag "EN-us", at "RO", and at an absent
`lang`. -/
theorem C4_language_selection_witness :
    pickLang (some "EN-us") = "en" ∧ pickLang (some "RO") = "ro" ∧ pickLang none = "ro" :=
  ⟨((C4_language_selection (some "EN-us") "q" (by decide)
      (Json.obj [("planets", Json.arr [Json.null])]) [Json.null] rfl (by simp)
      (fun _ => "")).1 (by decide)).1,
   ((C4_language_selection (some "RO") "q" (by decide)
      (Json.obj [("planets", Json.arr [Json.null])]) [Json.null] rfl (by simp)
      (fun _ => "")).2.1 (by decide)).1,
   (C4_language_selection none "q" (by decide)
      (Json.obj [("planets", Json.arr [Json.null])]) [Json.null] rfl (by simp)
      (fun _ => "")).2.2⟩

/-! Claim C5. -/

/-- C5: a failure whose message matches the abort pattern — in particular
the runtime abort rejection fired by the timeout — is answered 500 with
the fixed timeout sentence by both endpoints, and the cancellation signal
name "AbortError" does not occur (even case-insensitively) in that
sentence. -/
theorem C5_timeout_normalization :
    (∀ msg : String, isAbortMsg msg = true →
        endpointCatch msg =
          { status := 500, ok := false, error := some timeoutSentence, text := none })
  ∧ containsCI timeoutSentence "aborterror" = false
  ∧ (∀ (b : MagicballBody) (q : String), b.question = some q → q ≠ "" →
        magicballHandler b FetchResult.abortError =
          { status := 500, ok := false, error := some timeoutSentence, text := none })
  ∧ (∀ (b : AstroBody) (ser : AstroPayload → String) (xs : List Json),
        astroPlanets b = some (Json.arr xs) → xs ≠ [] →
        astroHandler b ser FetchResult.abortError =
          { status := 500, ok := false, error := some timeoutSentence, text := none }) := by
  refine ⟨?_, by decide, ?_, ?_⟩
  · intro msg h
    unfold endpointCatch
    rw [h]
    rfl
  · intro b q hb hq
    rw [magicballHandler_valid b q hb hq]
    decide
  · intro b ser xs hp hne
    rw [astroHandler_valid b ser xs hp hne]
    decide

/-- Witness: C5 at both endpoints with valid bodies and the abort firing. -/
theorem C5_timeout_normalization_witness :
    magicballHandler { question := some "q", lang := none } FetchResult.abortError =
      { status := 500, ok := false, error := some timeoutSentence, text := none }
  ∧ astroHandler
      { birthChart := some (Json.obj [("planets", Json.arr [Json.null])]),
        lang := none, question := none } (fun _ => "") FetchResult.abortError =
      { status := 500, ok := false, error := some timeoutSentence, text := none } :=
  ⟨C5_timeout_normalization.2.2.1 { question := some "q", lang := none } "q" rfl (by decide),
   C5_timeout_normalization.2.2.2
     { birthChart := some (Json.obj [("planets", Json.arr [Json.null])]),
       lang := none, question := none } (fun _ => "") [Json.null] rfl (by simp)⟩

/-! Claim C6. -/

/-- C6 fails as stated: a present provider error message that happens to
match the abort pattern (here one containing "aborted") is not relayed;
the endpoint replaces it with the fixed timeout sentence. -/
theorem C6_counterexample :
    (magicballHandler { question := some "q", lang := none }
        (FetchResult.response false 500 (some "Request was aborted by the server.") none)).error
      = some timeoutSentence
  ∧ some timeoutSentence ≠ some "Request was aborted by the server." := by
  refine ⟨by decide, by decide⟩

/-- C6 amended: on a non-success upstream status, `openaiChat` fails with
the provider message when it is present and non-empty and with the generic
"OpenAI HTTP status" message when it is absent or empty; the endpoint
relays that message at status 500 provided it does not match the abort
pattern (a matching message is replaced by the fixed timeout sentence). -/
theorem C6_upstream_error (status : Nat) (m : String) (content : Option String)
    (hm : m ≠ "") :
    openaiChat (FetchResult.response false status (some m) content) = Except.error m
  ∧ (∀ em : Option String, em = none ∨ em = some "" →
      openaiChat (FetchResult.response false status em content) =
        Except.error ("OpenAI HTTP " ++ toString status))
  ∧ (∀ (b : MagicballBody) (q : String), b.question = some q → q ≠ "" →
      isAbortMsg m = false →
      magicballHandler b (FetchResult.response false status (some m) content) =
        { status := 500, ok := false, error := some m, text := none })
  ∧ (∀ (b : AstroBody) (ser : AstroPayload → String) (xs : List Json),
      astroPlanets b = some (Json.arr xs) → xs ≠ [] → isAbortMsg m = false →
      astroHandler b ser (FetchResult.response false status (some m) content) =
        { status := 500, ok := false, error := some m, text := none }) := by
  have hchat : openaiChat (FetchResult.response false status (some m) content) =
      Except.error m := by
    simp [openaiChat, hm]
  refine ⟨hchat, ?_, ?_, ?_⟩
  · intro em hem
    rcases hem with hem | hem
    · rw [hem]
      simp [openaiChat]
    · rw [hem]
      simp [openaiChat]
  · intro b q hb hq hab
    rw [magicballHandler_valid b q hb hq, hchat]
    simp [endpointCatch, hab]
  · intro b ser xs hp hne hab
    rw [astroHandler_valid b ser xs hp hne, hchat]
    simp [endpointCatch, hab]

/-- Witness: the amended C6 at a 503 with a present message, an absent
payload, and both endpoints. -/
theorem C6_upstream_error_witness :
    openaiChat (FetchResult.response false 503 (some "The model is overloaded.") none) =
      Except.error "The model is overloaded."
  ∧ openaiChat (FetchResult.response false 503 none none) =
      Except.error "OpenAI HTTP 503"
  ∧ magicballHandler { question := some "q", lang := none }
      (FetchResult.response false 503 (some "The model is overloaded.") none) =
      { status := 500, ok := false, error := some "The model is overloaded.", text := none } :=
  ⟨(C6_upstream_error 503 "The model is overloaded." none (by decide)).1,
   (C6_upstream_error 503 "The model is overloaded." none (by decide)).2.1 none (Or.inl rfl),
   (C6_upstream_error 503 "The model is overloaded." none (by decide)).2.2.1
     { question := some "q", lang := none } "q" rfl (by decide) (by decide)⟩

/-! Claims C7 and C8. -/

/-- Inversion: every request /magicball sends upstream has no explicit
model, token bound 1400 and timeout 65000. -/
theorem magicballRequest_inv (b : MagicballBody) (args : ChatArgs)
    (h : magicballRequest b = some args) :
    args.model = none ∧ args.maxTokens = some 1400 ∧ args.timeoutMs = some 65000 := by
  cases hb : b.question with
  | none =>
    have hnone : magicballRequest b = none := by
      unfold magicballRequest
      rw [hb]
    rw [hnone] at h
    cases h
  | some q =>
    by_cases hq : q = ""
    · have hnone : magicballRequest b = none := by
        unfold magicballRequest
        rw [hb]
        simp [hq]
      rw [hnone] at h
      cases h
    · have hv := magicballRequest_valid b q hb hq
      rw [hv] at h
      cases h
      exact ⟨rfl, rfl, rfl⟩

/-- Inversion: every request /astro sends upstream has no explicit model,
token bound 2200 and timeout 90000. -/
theorem astroRequest_inv (b : AstroBody) (ser : AstroPayload → String) (args : ChatArgs)
    (h : astroRequest b ser = some args) :
    args.model = none ∧ args.maxTokens = some 2200 ∧ args.timeoutMs = some 90000 := by
  cases hp : astroPlanets b with
  | none =>
    have hnone : astroRequest b ser = none := by
      unfold astroRequest
      rw [hp]
    rw [hnone] at h
    cases h
  | some v =>
    cases v with
    | arr xs =>
      by_cases hx : xs = []
      · have hnone : astroRequest b ser = none := by
          unfold astroRequest
          rw [hp, hx]
          rfl
        rw [hnone] at h
        cases h
      · have hv := astroRequest_valid b ser xs hp hx
        rw [hv] at h
        cases h
        exact ⟨rfl, rfl, rfl⟩
    | null =>
      have hnone : astroRequest b ser = none := by
        unfold astroRequest
        rw [hp]
      rw [hnone] at h
      cases h
    | bool bb =>
      have hnone : astroRequest b ser = none := by
        unfold astroRequest
        rw [hp]
      rw [hnone] at h
      cases h
    | num n =>
      have hnone : astroRequest b ser = none := by
        unfold astroRequest
        rw [hp]
      rw [hnone] at h
      cases h
    | str st =>
      have hnone : astroRequest b ser = none := by
        unfold astroRequest
        rw [hp]
      rw [hnone] at h
      cases h
    | obj kvs =>
      have hnone : astroRequest b ser = none := by
        unfold astroRequest
        rw [hp]
      rw [hnone] at h
      cases h

/-- C7 fails as stated: setting an astro-specific override "modelB" next to
the global default "modelA" leaves the astro call on "modelA"; the code
reads no astro-specific variable, so the spec-worded precedence (which
would pick "modelB") disagrees with the code. -/
theorem C7_counterexample :
    astroUsedModel (some "modelA") (some "modelB") = "modelA"
  ∧ astroUsedModel (some "modelA") (some "modelB") ≠
      resolveModelSpec none (some "modelB") (some "modelA") "gpt-4o" := by
  refine ⟨rfl, by decide⟩

/-- C7 amended: the model is resolved as explicit per-call value, else the
global OPENAI_MODEL_CHAT default, else "gpt-4o"; neither endpoint passes
an explicit model, so the astro endpoint always resolves to the same model
as the oracle endpoint and no astro-specific override exists. -/
theorem C7_model_resolution (envChat envAstro : Option String) :
    (∀ m : String, m ≠ "" → usedModel (some m) envChat = m)
  ∧ (∀ c : String, c ≠ "" → usedModel none (some c) = c)
  ∧ usedModel none none = "gpt-4o"
  ∧ astroUsedModel envChat envAstro = magicballUsedModel envChat envAstro
  ∧ (∀ (b : MagicballBody) (args : ChatArgs),
        magicballRequest b = some args → args.model = none)
  ∧ (∀ (b : AstroBody) (ser : AstroPayload → String) (args : ChatArgs),
        astroRequest b ser = some args → args.model = none) := by
  refine ⟨?_, ?_, rfl, rfl, ?_, ?_⟩
  · intro m hm
    simp [usedModel, jsOr, hm]
  · intro c hc
    simp [usedModel, jsOr, hc]
  · intro b args h
    exact (magicballRequest_inv b args h).1
  · intro b ser args h
    exact (astroRequest_inv b ser args h).1

/-- Witness: the amended C7 at concrete environments. -/
theorem C7_model_resolution_witness :
    usedModel (some "m1") (some "c1") = "m1"
  ∧ usedModel none (some "c1") = "c1"
  ∧ usedModel none none = "gpt-4o"
  ∧ astroUsedModel (some "c1") (some "a1") = magicballUsedModel (some "c1") (some "a1") :=
  ⟨(C7_model_resolution (some "c1") none).1 "m1" (by decide),
   (C7_model_resolution (some "c1") none).2.1 "c1" (by decide),
   (C7_model_resolution none none).2.2.1,
   (C7_model_resolution (some "c1") (some "a1")).2.2.2.1⟩

/-- C8: the astro call site uses a strictly higher token bound and a
strictly longer timeout than the oracle call site, and the enforced wait
bound is at least 10000 ms whatever timeout is requested. -/
theorem C8_bounds :
    (∀ (b : MagicballBody) (ab : AstroBody) (ser : AstroPayload → String)
        (ma aa : ChatArgs),
        magicballRequest b = some ma → astroRequest ab ser = some aa →
          effectiveMaxTokens aa.maxTokens > effectiveMaxTokens ma.maxTokens
        ∧ effectiveTimeout aa.timeoutMs > effectiveTimeout ma.timeoutMs)
  ∧ (∀ t : Option Nat, effectiveTimeout t ≥ 10000) := by
  refine ⟨?_, ?_⟩
  · intro b ab ser ma aa hm ha
    obtain ⟨-, hmt, hms⟩ := magicballRequest_inv b ma hm
    obtain ⟨-, hat, has⟩ := astroRequest_inv ab ser aa ha
    rw [hmt, hms, hat, has]
    exact ⟨by decide, by decide⟩
  · intro t
    unfold effectiveTimeout
    exact le_max_left 10000 _

/-- Witness: C8 at valid bodies of both endpoints. -/
theorem C8_bounds_witness :
    effectiveMaxTokens (some 2200) > effectiveMaxTokens (some 1400)
  ∧ effectiveTimeout (some 90000) > effectiveTimeout (some 65000) := by
  have hm := magicballRequest_valid { question := some "q", lang := none } "q" rfl (by decide)
  have hp : astroPlanets
      { birthChart := some (Json.obj [("planets", Json.arr [Json.null])]),
        lang := none, question := none } = some (Json.arr [Json.null]) := rfl
  have ha := astroRequest_valid
    { birthChart := some (Json.obj [("planets", Json.arr [Json.null])]),
      lang := none, question := none } (fun _ => "") [Json.null] hp (by simp)
  exact C8_bounds.1 _ _ _ _ _ hm ha

/-! Claim C9. -/

/-- C9: for a valid /astro body the payload lists exactly the projection of
each planet entry to the four fields name/sign/degree/longitude (two
entries agreeing on those four fields project identically, so every other
field is dropped), the `houses` structure passes through unmodified when
present (as a truthy value — every JSON object is), and a supplied focus
question with non-whitespace content is included trimmed. -/
theorem C9_astro_payload (b : AstroBody) (xs : List Json)
    (_hp : astroPlanets b = some (Json.arr xs)) (_hne : xs ≠ []) :
    (astroPayloadOf b xs).planets = xs.map projPlanet
  ∧ (∀ p q : Json, (∀ k ∈ projKeys, jsGet p k = jsGet q k) → projPlanet p = projPlanet q)
  ∧ (∀ hs : Json, b.birthChart.bind (fun bc => jsGet bc "houses") = some hs →
        jsTruthy hs = true → (astroPayloadOf b xs).houses = hs)
  ∧ (∀ s : String, b.question = some s → jsTrim s ≠ "" →
        (astroPayloadOf b xs).focus = some (jsTrim s)) := by
  refine ⟨rfl, ?_, ?_, ?_⟩
  · intro p q hk
    have h1 := hk "name" (by simp [projKeys])
    have h2 := hk "sign" (by simp [projKeys])
    have h3 := hk "degree" (by simp [projKeys])
    have h4 := hk "longitude" (by simp [projKeys])
    simp [projPlanet, h1, h2, h3, h4]
  · intro hs hhs ht
    unfold astroPayloadOf astroHouses
    rw [hhs]
    simp [ht]
  · intro s hqs htr
    have hs0 : s ≠ "" := by
      intro h0
      exact htr (by rw [h0]; rfl)
    unfold astroPayloadOf astroFocus
    rw [hqs]
    simp [hs0, htr]

/-- Witness: C9 at a one-planet chart with extra planet fields, a houses
object, and the focus question " career ". -/
theorem C9_astro_payload_witness :
    (astroPayloadOf
        { birthChart := some (Json.obj
            [("planets", Json.arr [Json.obj
                [("name", Json.str "Sun"), ("sign", Json.str "Leo"),
                 ("degree", Json.num 12), ("speed", Json.num 1)]]),
             ("houses", Json.obj [("ascendant", Json.num 100)])]),
          lang := none, question := some " career " }
        [Json.obj [("name", Json.str "Sun"), ("sign", Json.str "Leo"),
                   ("degree", Json.num 12), ("speed", Json.num 1)]]).houses =
      Json.obj [("ascendant", Json.num 100)]
  ∧ (astroPayloadOf
        { birthChart := some (Json.obj
            [("planets", Json.arr [Json.obj
                [("name", Json.str "Sun"), ("sign", Json.str "Leo"),
                 ("degree", Json.num 12), ("speed", Json.num 1)]]),
             ("houses", Json.obj [("ascendant", Json.num 100)])]),
          lang := none, question := some " career " }
        [Json.obj [("name", Json.str "Sun"), ("sign", Json.str "Leo"),
                   ("degree", Json.num 12), ("speed", Json.num 1)]]).focus =
      some "career" :=
  ⟨(C9_astro_payload
      { birthChart := some (Json.obj
          [("planets", Json.arr [Json.obj
              [("name", Json.str "Sun"), ("sign", Json.str "Leo"),
               ("degree", Json.num 12), ("speed", Json.num 1)]]),
           ("houses", Json.obj [("ascendant", Json.num 100)])]),
        lang := none, question := some " career " }
      [Json.obj [("name", Json.str "Sun"), ("sign", Json.str "Leo"),
                 ("degree", Json.num 12), ("speed", Json.num 1)]]
      rfl (by simp)).2.2.1 (Json.obj [("ascendant", Json.num 100)]) rfl rfl,
   (C9_astro_payload
      { birthChart := some (Json.obj
          [("planets", Json.arr [Json.obj
              [("name", Json.str "Sun"), ("sign", Json.str "Leo"),
               ("degree", Json.num 12), ("speed", Json.num 1)]]),
           ("houses", Json.obj [("ascendant", Json.num 100)])]),
        lang := none, question := some " career " }
      [Json.obj [("name", Json.str "Sun"), ("sign", Json.str "Leo"),
                 ("degree", Json.num 12), ("speed", Json.num 1)]]
      rfl (by simp)).2.2.2 " career " rfl (by decide)⟩

/-! Claim C10. -/

/-- C10: the endpoint catch classifies every failure solely by the
case-insensitive abort pattern on the message — matching messages become
the fixed timeout sentence, all other messages are relayed raw — both
handlers route every upstream failure message through that catch, and a
provider payload message merely containing "aborted" is turned into the
timeout sentence. -/
theorem C10_abort_classification (msg : String) :
    (isAbortMsg msg = true → endpointCatch msg =
        { status := 500, ok := false, error := some timeoutSentence, text := none })
  ∧ (isAbortMsg msg = false → endpointCatch msg =
        { status := 500, ok := false, error := some msg, text := none })
  ∧ (∀ (b : MagicballBody) (q : String) (fr : FetchResult),
        b.question = some q → q ≠ "" →
        openaiChat fr = Except.error msg → magicballHandler b fr = endpointCatch msg)
  ∧ (∀ (b : AstroBody) (ser : AstroPayload → String) (xs : List Json) (fr : FetchResult),
        astroPlanets b = some (Json.arr xs) → xs ≠ [] →
        openaiChat fr = Except.error msg → astroHandler b ser fr = endpointCatch msg)
  ∧ magicballHandler { question := some "q", lang := none }
      (FetchResult.response false 502 (some "connection aborted") none) =
      { status := 500, ok := false, error := some timeoutSentence, text := none } := by
  refine ⟨?_, ?_, ?_, ?_, by decide⟩
  · intro h
    unfold endpointCatch
    rw [h]
    rfl
  · intro h
    unfold endpointCatch
    rw [h]
    rfl
  · intro b q fr hb hq hch
    rw [magicballHandler_valid b q hb hq, hch]
  · intro b ser xs fr hp hne hch
    rw [astroHandler_valid b ser xs hp hne, hch]

/-- Witness: C10 at a matching and at a non-matching message. -/
theorem C10_abort_classification_witness :
    endpointCatch "This operation was aborted" =
      { status := 500, ok := false, error := some timeoutSentence, text := none }
  ∧ endpointCatch "boom" =
      { status := 500, ok := false, error := some "boom", text := none } :=
  ⟨(C10_abort_classification "This operation was aborted").1 (by decide),
   (C10_abort_classification "boom").2.1 (by decide)⟩
